import Mathlib

/-!
Verification of the task-orchestration core of the `maa-telegram-bot`
repository against its natural-language specification.

The Rust source is shallowly embedded:

* `HashMap<K, V>` becomes an association list `List (K × V)` with
  first-match lookup (`mapLookup`).  `HashMap::insert` in the source is
  only ever called on a key whose presence was just checked (or on a
  freshly generated id), so consing (`mapInsert`) and in-place value
  replacement (`mapSet`) are observationally equal to the source maps.
* `uuid::Uuid::new_v4().to_string()` (fresh, never-reused opaque string
  ids) is modelled by a counter `next_id` in the state together with the
  injective generator `genId`; freshness of a v4 uuid becomes the
  invariant `TasksWF`.
* Code that can `panic` (an `unwrap` on a missing key, an unknown task
  kind in `From<&str> for TaskType`) returns `Option`, `none` marking
  the panic; fallible handlers return `Except AppError`.
* Telegram side effects (`send_message`, `send_photo`) are collected as
  a list of `Msg` values; `answer_callback_query` acknowledgements carry
  no operator-visible text and are not recorded.  Base64-decoding a
  capture payload is a transport representation change and the raw
  payload string is kept in the `photoBase64` message.
-/

namespace Maa

/-- Association-list lookup with first-match semantics, the model of
`HashMap::get`. -/
def mapLookup {κ α : Type} [DecidableEq κ] : List (κ × α) → κ → Option α
  | [], _ => none
  | (k', v) :: rest, k => if k' = k then some v else mapLookup rest k

/-- Model of `HashMap::contains_key`. -/
def containsKey {κ α : Type} [DecidableEq κ] (m : List (κ × α)) (k : κ) : Bool :=
  (mapLookup m k).isSome

/-- Model of `HashMap::insert` for a key that is absent (every call in the
source is guarded by a `contains_key` check or uses a fresh id); with
first-match lookup a cons realizes the insertion. -/
def mapInsert {κ α : Type} [DecidableEq κ] (m : List (κ × α)) (k : κ) (v : α) :
    List (κ × α) :=
  (k, v) :: m

/-- Model of mutating the value behind `HashMap::get_mut`: replace the value
of the first binding of `k`. -/
def mapSet {κ α : Type} [DecidableEq κ] : List (κ × α) → κ → α → List (κ × α)
  | [], _, _ => []
  | (k', v') :: rest, k, v =>
    if k' = k then (k, v) :: rest else (k', v') :: mapSet rest k v

/-- Model of Rust's `str::starts_with` (Lean's own `String.startsWith` is
compiled code the kernel cannot evaluate, so the byte-level check is
embedded as a prefix test on the character list). -/
def starts_with (s p : String) : Bool :=
  p.data.isPrefixOf s.data

/-- Fuel-driven character-list core of Rust's `str::replace`: scan left to
right, replacing each non-overlapping occurrence of `pat`. -/
def replaceL (pat rep : List Char) : Nat → List Char → List Char
  | _, [] => []
  | 0, l => l
  | Nat.succ fuel, c :: rest =>
    if pat.isPrefixOf (c :: rest) then
      rep ++ replaceL pat rep fuel (List.drop pat.length (c :: rest))
    else
      c :: replaceL pat rep fuel rest

/-- Model of Rust's `str::replace` (an empty pattern never occurs in the
source; it is returned unchanged to keep the function total). -/
def replaceS (s pat rep : String) : String :=
  if pat.data = [] then s
  else String.mk (replaceL pat.data rep.data s.data.length s.data)

/-- The closed task-kind catalogue (`enum TaskType` in `model.rs`). -/
inductive TaskType
  | CaptureImage
  | CaptureImageNow
  | LinkStartBase
  | LinkStartWakeUp
  | LinkStartCombat
  | LinkStartRecruiting
  | LinkStartMall
  | LinkStartMission
  | LinkStartAutoRoguelike
  | LinkStartReclamationAlgorithm
  | HeartBeat
  deriving DecidableEq, Repr

namespace TaskType

/-- The `Display` implementation for `TaskType` in `model.rs`. -/
def toWire : TaskType → String
  | .CaptureImage => "CaptureImage"
  | .CaptureImageNow => "CaptureImageNow"
  | .LinkStartBase => "LinkStart-Base"
  | .LinkStartWakeUp => "LinkStart-WakeUp"
  | .LinkStartCombat => "LinkStart-Combat"
  | .LinkStartRecruiting => "LinkStart-Recruiting"
  | .LinkStartMall => "LinkStart-Mall"
  | .LinkStartMission => "LinkStart-Mission"
  | .LinkStartAutoRoguelike => "LinkStart-AutoRoguelike"
  | .LinkStartReclamationAlgorithm => "LinkStart-ReclamationAlgorithm"
  | .HeartBeat => "HeartBeat"

/-- The `From<&str> for TaskType` implementation in `model.rs`; the source
panics on an unrecognized string, modelled by `none`. -/
def fromStr : String → Option TaskType
  | "CaptureImage" => some .CaptureImage
  | "CaptureImageNow" => some .CaptureImageNow
  | "LinkStart-Base" => some .LinkStartBase
  | "LinkStart-WakeUp" => some .LinkStartWakeUp
  | "LinkStart-Combat" => some .LinkStartCombat
  | "LinkStart-Recruiting" => some .LinkStartRecruiting
  | "LinkStart-Mall" => some .LinkStartMall
  | "LinkStart-Mission" => some .LinkStartMission
  | "LinkStart-AutoRoguelike" => some .LinkStartAutoRoguelike
  | "LinkStart-ReclamationAlgorithm" => some .LinkStartReclamationAlgorithm
  | "HeartBeat" => some .HeartBeat
  | _ => none

/-- The choice catalogue `TaskType::get_all` in `model.rs`. -/
def get_all : List String :=
  [ "CaptureImage"
  , "CaptureImageNow"
  , "LinkStart-Base"
  , "LinkStart-WakeUp"
  , "LinkStart-Combat"
  , "LinkStart-Recruiting"
  , "LinkStart-Mall"
  , "LinkStart-Mission"
  , "LinkStart-AutoRoguelike"
  , "LinkStart-ReclamationAlgorithm" ]

end TaskType

/-- Model of `uuid::Uuid::new_v4().to_string()`: the n-th id ever generated
by the process.  Always a non-empty string (so an id is never confused with
the empty heartbeat payload) and injective, which stands for the
collision-freedom of v4 uuids that the spec assumes. -/
def genId (n : Nat) : String :=
  String.mk (List.replicate (n + 1) 'x')

theorem genId_inj {m n : Nat} (h : genId m = genId n) : m = n := by
  have hd : (genId m).data = (genId n).data := congrArg String.data h
  simp only [genId] at hd
  have := congrArg List.length hd
  simpa using this

theorem genId_ne_empty (n : Nat) : genId n ≠ "" := by
  intro h
  have hd : (genId n).data = ("" : String).data := congrArg String.data h
  simp [genId] at hd

/-- A task (`struct Task` in `model.rs`): a fresh id plus a kind. -/
structure Task where
  id : String
  task_type : TaskType
  deriving DecidableEq, Repr

/-- A user session (`struct User` in `model.rs`). -/
structure User where
  id : String
  tasks : List Task
  deriving DecidableEq, Repr

/-- A device (`struct Device` in `model.rs`). -/
structure Device where
  id : String
  name : String
  users : List (String × User)
  deriving DecidableEq, Repr

namespace Device

/-- Constructor `Device::new`: display name defaults to the id. -/
def new (id : String) : Device :=
  { id := id, name := id, users := [] }

/-- Constructor `Device::new_with_name` used for allow-listed devices. -/
def new_with_name (id name : String) : Device :=
  { id := id, name := name, users := [] }

end Device

/-- The error taxonomy of `error.rs` (transport-level variants omitted). -/
inductive AppError
  | DeviceNotFound (id : String)
  | UserNotFound (id : String)
  | TaskNotFound (id : String)
  deriving DecidableEq, Repr

/-- The shared application state (`struct AppState` in `main.rs`), minus the
transport handles; `next_id` models the uuid generator. -/
structure AppState where
  devices : List (String × Device)
  all_tasks : List (String × TaskType)
  tg_user_id : Int
  is_single_user : Bool
  allowed_devices : Option (List (String × String))
  next_id : Nat
  deriving DecidableEq, Repr

/-- The poll request body (`struct GetTaskReq` in `model.rs`). -/
structure GetTaskReq where
  user : String
  device : String
  deriving DecidableEq, Repr

/-- The report request body (`struct TaskStatus` in `model.rs`). -/
structure TaskStatus where
  user : String
  device : String
  task : String
  status : String
  payload : String
  deriving DecidableEq, Repr

/-- An operator-visible side effect of a handler: a Telegram text message,
a text message carrying an inline keyboard (recorded as the list of callback
tokens it offers), or a photo (recorded as its base64 payload). -/
inductive Msg
  | text (s : String)
  | textWithButtons (s : String) (tokens : List String)
  | photoBase64 (payload : String)
  deriving DecidableEq, Repr

/-- Model of `users.entry(req.user).or_insert(User { id, tasks: vec![] })`
as far as the map is concerned: insert an empty session if absent. -/
def ensureUser (users : List (String × User)) (user_id : String) :
    List (String × User) :=
  if containsKey users user_id then users
  else mapInsert users user_id { id := user_id, tasks := [] }

/-- The session the `entry` call hands back (present after `ensureUser`;
the default is unreachable). -/
def userIn (users : List (String × User)) (user_id : String) : User :=
  (mapLookup users user_id).getD { id := user_id, tasks := [] }

/-- Helper for `get_task`: the part of the handler after the lazy-creation
and allow-list gate (`main.rs` lines 231-250): count devices, fetch the
device, lazily create the user session, snapshot its task list (without
clearing it), and store the single-session flag. -/
def get_task_body (s : AppState) (req : GetTaskReq) :
    Except AppError (AppState × List Task) :=
  let deviceLength := s.devices.length
  match mapLookup s.devices req.device with
  | none => .error (.DeviceNotFound req.device)
  | some device =>
    let users := ensureUser device.users req.user
    let tasks := (userIn users req.user).tasks
    let single := deviceLength == 1 && users.length == 1
    .ok ({ s with
            devices := mapSet s.devices req.device { device with users := users },
            is_single_user := single },
         tasks)

/-- The poll handler `get_task` in `main.rs` (lines 207-251): lazily create
the device (refusing when an allow-list is configured and does not contain
the device id), then run `get_task_body`. -/
def get_task (s : AppState) (req : GetTaskReq) :
    Except AppError (AppState × List Task) :=
  if containsKey s.devices req.device then
    get_task_body s req
  else
    match s.allowed_devices with
    | some allowed =>
      match mapLookup allowed req.device with
      | some name =>
        get_task_body
          { s with devices :=
              mapInsert s.devices req.device (Device.new_with_name req.device name) }
          req
      | none => .ok (s, [])
    | none =>
      get_task_body
        { s with devices := mapInsert s.devices req.device (Device.new req.device) }
        req

/-- The correlation-table read `get_task_type` in `main.rs` (lines 125-131). -/
def get_task_type (s : AppState) (task_id : String) : Except AppError TaskType :=
  match mapLookup s.all_tasks task_id with
  | some t => .ok t
  | none => .error (.TaskNotFound task_id)

/-- The report handler `report_status` in `main.rs` (lines 136-202).  The
registry is read-only here; the result is the list of messages sent before
the handler finished (in order) together with the final outcome.  On an
error the already-sent messages are kept, mirroring that the notification
side effect precedes the failure. -/
def report_status (s : AppState) (req : TaskStatus) :
    List Msg × Except AppError Unit :=
  match get_task_type s req.task with
  | .error e => ([], .error e)
  | .ok task_type =>
    let notify := Msg.text
      ("Task " ++ task_type.toWire ++ " finished. Status: " ++ req.status)
    match task_type with
    | .CaptureImage | .CaptureImageNow =>
      ([notify, .photoBase64 req.payload], .ok ())
    | .HeartBeat =>
      if req.payload.data.isEmpty then
        ([notify, .text "No task is running."], .ok ())
      else
        match get_task_type s req.payload with
        | .error e => ([notify], .error e)
        | .ok inner =>
          ([notify,
            .text ("Task " ++ inner.toWire ++ " is running.\nTask id: " ++ req.payload)],
           .ok ())
    | .LinkStartCombat | .LinkStartBase | .LinkStartWakeUp | .LinkStartMall
    | .LinkStartMission | .LinkStartAutoRoguelike
    | .LinkStartReclamationAlgorithm | .LinkStartRecruiting =>
      ([notify], .ok ())

/-- The enqueue operation `append_task` in `bot/mod.rs` (lines 127-154).
The source unwraps the device and user lookups (panicking when either is
absent) and panics inside `Task::from_str` on an unknown kind string; all
three panics are modelled by `none`.  Otherwise the primary task is pushed
and recorded in `all_tasks`, and unless its kind is `CaptureImage` a
companion `CaptureImage` task with its own fresh id is pushed and recorded
in the same update.  The source function returns `()`. -/
def append_task (s : AppState) (device_id user_id task_str : String) :
    Option AppState :=
  match mapLookup s.devices device_id with
  | none => none
  | some device =>
    match mapLookup device.users user_id with
    | none => none
    | some user =>
      match TaskType.fromStr task_str with
      | none => none
      | some task_type =>
        let task : Task := { id := genId s.next_id, task_type := task_type }
        let user1 : User := { user with tasks := user.tasks ++ [task] }
        let all1 := mapInsert s.all_tasks task.id task_type
        if task_type = .CaptureImage then
          some { s with
                  devices := mapSet s.devices device_id
                    { device with users := mapSet device.users user_id user1 },
                  all_tasks := all1,
                  next_id := s.next_id + 1 }
        else
          let cap : Task := { id := genId (s.next_id + 1), task_type := .CaptureImage }
          let user2 : User := { user1 with tasks := user1.tasks ++ [cap] }
          some { s with
                  devices := mapSet s.devices device_id
                    { device with users := mapSet device.users user_id user2 },
                  all_tasks := mapInsert all1 cap.id .CaptureImage,
                  next_id := s.next_id + 2 }

/-- The registry-side reading of the single-session heuristic: the registry
holds exactly one device and that device holds exactly one user session. -/
def single_device_single_user (s : AppState) : Bool :=
  match s.devices with
  | [(_, d)] => d.users.length == 1
  | _ => false

/-- The per-conversation dialogue states (`enum BotDialogState` in
`bot/mod.rs`). -/
inductive BotDialogState
  | Idle
  | StartAppendTask
  | AppendTaskToDevice (device_id : String)
  | AppendTaskToUser (device_id user_id : String)
  | StartAppendHeartBeatTask
  | AppendHeartBeatTaskToDevice (device_id : String)
  deriving DecidableEq, Repr

/-- The operator commands (`enum Command` in `bot/mod.rs`). -/
inductive Command
  | AppendTask
  | ScreenshotAll
  | GetCurrentTask
  deriving DecidableEq, Repr

/-- The whole bot-side state: the shared registry plus the per-conversation
dialogue storage (`InMemStorage<BotDialogState>`, keyed by chat id). -/
structure BotState where
  app : AppState
  dialogs : List (Int × BotDialogState)
  deriving DecidableEq, Repr

/-- Reading a conversation's dialogue state; a conversation with no record
is in the default `Idle` state. -/
def dialogStateOf (g : BotState) (chat : Int) : BotDialogState :=
  (mapLookup g.dialogs chat).getD .Idle

/-- Model of `Dialogue::update` (and of `Dialogue::exit`, which makes the
next read return the default `Idle`): record the new state for the chat. -/
def putDialog (g : BotState) (chat : Int) (st : BotDialogState) : BotState :=
  { g with dialogs := (chat, st) :: g.dialogs }

/-- Projection `get_users` in `bot/mod.rs`: the session ids of a device;
the source unwraps, panicking for an unknown device (`none` here). -/
def get_users (s : AppState) (device_id : String) : Option (List String) :=
  (mapLookup s.devices device_id).map (fun d => d.users.map (fun p => p.2.id))

/-- Projection `get_devices` in `bot/mod.rs`: display names or raw ids of
all registered devices. -/
def get_devices (s : AppState) (use_name : Bool) : List String :=
  s.devices.map (fun p => if use_name then p.2.name else p.2.id)

/-- Selection `get_single_device_and_user` in `bot/mod.rs`: the first
device and its first user session; the source unwraps both, panicking on an
empty registry or a session-less device. -/
def get_single_device_and_user (s : AppState) : Option (Device × User) :=
  match s.devices with
  | [] => none
  | (_, d) :: _ =>
    match d.users with
    | [] => none
    | (_, u) :: _ => some (d, u)

/-- The callback tokens offered by `get_tasks_markup` in `bot/mod.rs`: the
task catalogue, each entry tagged with the task-kind category marker. -/
def get_tasks_markup : List String :=
  TaskType.get_all.map (fun t => "t:" ++ t)

/-- The callback tokens offered by `get_devices_markup` in `bot/mod.rs`. -/
def get_devices_markup (s : AppState) : List String :=
  (get_devices s true).map (fun d => "d:" ++ d)

/-- The callback tokens offered by `get_users_markup` in `bot/mod.rs`
(panics, via `get_users`, when the device is unknown). -/
def get_users_markup (s : AppState) (device_id : String) : Option (List String) :=
  (get_users s device_id).map (fun us => us.map (fun u => "u:" ++ u))

/-- Handler `start_append_task_dialog` in `bot/append_task.rs`: when the
single-session flag holds, jump straight to task-kind selection for the
single device/session; otherwise ask for a device. -/
def start_append_task_dialog (g : BotState) (chat : Int) :
    Option (BotState × List Msg) :=
  if g.app.is_single_user then
    match get_single_device_and_user g.app with
    | none => none
    | some (device, user) =>
      some (putDialog g chat (.AppendTaskToUser device.id user.id),
            [.textWithButtons
              ("Select task for device " ++ device.name ++ ", user " ++ user.id)
              get_tasks_markup])
  else
    some (putDialog g chat .StartAppendTask,
          [.textWithButtons "Select device:" (get_devices_markup g.app)])

/-- Handler `start_get_current_task_dialog` in `bot/get_current_task.rs`:
when the single-session flag holds, enqueue a `HeartBeat` directly and
return to `Idle` with no prompt; otherwise ask for a device. -/
def start_get_current_task_dialog (g : BotState) (chat : Int) :
    Option (BotState × List Msg) :=
  if g.app.is_single_user then
    match get_single_device_and_user g.app with
    | none => none
    | some (device, user) =>
      match append_task g.app device.id user.id TaskType.HeartBeat.toWire with
      | none => none
      | some app' => some ({ app := app', dialogs := (chat, .Idle) :: g.dialogs }, [])
  else
    some (putDialog g chat .StartAppendHeartBeatTask,
          [.textWithButtons "Select device:" (get_devices_markup g.app)])

/-- The fan-out `append_screenshot_to_all` in `bot/screenshot_all.rs`:
enqueue `CaptureImageNow` for every device and every session of the
registry snapshot. -/
def append_screenshot_to_all (s : AppState) : Option AppState :=
  s.devices.foldl
    (fun acc p =>
      acc.bind (fun st =>
        p.2.users.foldl
          (fun acc2 q =>
            acc2.bind (fun st2 =>
              append_task st2 p.2.id q.2.id TaskType.CaptureImageNow.toWire))
          (some st)))
    (some s)

/-- Handler `take_screenshot_all` in `bot/screenshot_all.rs`. -/
def take_screenshot_all (g : BotState) : Option (BotState × List Msg) :=
  match append_screenshot_to_all g.app with
  | none => none
  | some app' => some ({ g with app := app' }, [.text "Tasks sent."])

/-- Handler `receive_device` in `bot/append_task.rs` (lines 47-90): reject a
token without the device marker with an "Invalid device id" reply and no
state change; otherwise advance according to the stored dialogue state, a
state that expects no device choice drawing an "Invalid state" reply and no
state change. -/
def receive_device (g : BotState) (chat : Int) (cur : BotDialogState)
    (data : Option String) : Option (BotState × List Msg) :=
  match data with
  | none => some (g, [])
  | some tok =>
    if starts_with tok "d:" then
      let device_id := replaceS tok "d:" ""
      match cur with
      | .StartAppendTask =>
        match get_users_markup g.app device_id with
        | none => none
        | some markup =>
          some (putDialog g chat (.AppendTaskToDevice device_id),
                [.textWithButtons "Select user" markup])
      | .StartAppendHeartBeatTask =>
        match get_users_markup g.app device_id with
        | none => none
        | some markup =>
          some (putDialog g chat (.AppendHeartBeatTaskToDevice device_id),
                [.textWithButtons "Select user" markup])
      | _ => some (g, [.text "Invalid state"])
    else
      some (g, [.text "Invalid device id"])

/-- Handler `receive_user` in `bot/append_task.rs`: reject a token without
the session marker; in the heartbeat flow enqueue `HeartBeat` at once and
return to `Idle`, otherwise move to task-kind selection. -/
def receive_user (g : BotState) (chat : Int) (device_id : String)
    (cur : BotDialogState) (data : Option String) : Option (BotState × List Msg) :=
  match data with
  | none => some (g, [])
  | some tok =>
    if starts_with tok "u:" then
      let user_id := replaceS tok "u:" ""
      match cur with
      | .AppendHeartBeatTaskToDevice _ =>
        match append_task g.app device_id user_id TaskType.HeartBeat.toWire with
        | none => none
        | some app' => some ({ app := app', dialogs := (chat, .Idle) :: g.dialogs }, [])
      | _ =>
        some (putDialog g chat (.AppendTaskToUser device_id user_id),
              [.textWithButtons "Select task" get_tasks_markup])
    else
      some (g, [.text "Invalid user id"])

/-- Handler `receive_task` in `bot/append_task.rs`: reject a token without
the task-kind marker; otherwise leave the dialogue, enqueue, and confirm. -/
def receive_task (g : BotState) (chat : Int) (device_id user_id : String)
    (data : Option String) : Option (BotState × List Msg) :=
  match data with
  | none => some (g, [])
  | some tok =>
    if starts_with tok "t:" then
      let task_str := replaceS tok "t:" ""
      match append_task g.app device_id user_id task_str with
      | none => none
      | some app' =>
        some ({ app := app', dialogs := (chat, .Idle) :: g.dialogs },
              [.text "Task added"])
    else
      some (g, [.text "Invalid task"])

/-- An operator turn as it reaches the dispatcher: a command message, a
callback query (whose data may be absent), or a plain non-command text
message (which no branch of the schema handles). -/
inductive TurnPayload
  | command (c : Command)
  | callbackQuery (data : Option String)
  | plainMessage (s : String)
  deriving DecidableEq, Repr

structure Turn where
  chatId : Int
  payload : TurnPayload
  deriving DecidableEq, Repr

/-- Model of `teloxide::types::ChatId::is_user` (external library): a
private-chat (user) id is positive. -/
def chatIdIsUser (n : Int) : Bool :=
  decide (0 < n)

/-- The dispatcher built by `schema` in `bot/mod.rs` (lines 203-242): the
access-control filter drops every turn whose chat id is not the configured
operator's private chat (no handler runs, no reply); otherwise commands are
routed to their handlers and callback queries are routed by the stored
dialogue state (a callback in `Idle` matches no branch and does nothing). -/
def dispatch (g : BotState) (t : Turn) : Option (BotState × List Msg) :=
  if chatIdIsUser t.chatId && t.chatId == g.app.tg_user_id then
    match t.payload with
    | .command .AppendTask => start_append_task_dialog g t.chatId
    | .command .ScreenshotAll => take_screenshot_all g
    | .command .GetCurrentTask => start_get_current_task_dialog g t.chatId
    | .plainMessage _ => some (g, [])
    | .callbackQuery data =>
      match dialogStateOf g t.chatId with
      | .StartAppendTask => receive_device g t.chatId .StartAppendTask data
      | .StartAppendHeartBeatTask =>
        receive_device g t.chatId .StartAppendHeartBeatTask data
      | .AppendTaskToDevice d =>
        receive_user g t.chatId d (.AppendTaskToDevice d) data
      | .AppendHeartBeatTaskToDevice d =>
        receive_user g t.chatId d (.AppendHeartBeatTaskToDevice d) data
      | .AppendTaskToUser d u => receive_task g t.chatId d u data
      | .Idle => some (g, [])
  else
    some (g, [])

/-- A boundary operation on the shared registry: a device poll or an
operator enqueue. -/
inductive Op
  | poll (req : GetTaskReq)
  | enqueue (device_id user_id task_str : String)
  deriving DecidableEq, Repr

/-- One boundary operation applied to the registry.  A failed poll leaves
the registry as the handler left it (the only error path mutates nothing);
a panicking enqueue is modelled as mutating nothing. -/
def stepOp (s : AppState) : Op → AppState
  | .poll req =>
    match get_task s req with
    | .ok (s', _) => s'
    | .error _ => s
  | .enqueue d u t => (append_task s d u t).getD s

/-- A sequence of boundary operations. -/
def runOps (s : AppState) : List Op → AppState
  | [] => s
  | op :: rest => runOps (stepOp s op) rest

/-- Well-formedness of the generated ids: every key of the correlation
table was produced by the id generator before the current counter value.
This is the embedding of the uuid freshness assumption. -/
def TasksWF (s : AppState) : Prop :=
  ∀ id k, mapLookup s.all_tasks id = some k → ∃ m, m < s.next_id ∧ id = genId m

section MapLemmas

variable {κ α : Type} [DecidableEq κ]

theorem mapLookup_cons_self (k : κ) (v : α) (m : List (κ × α)) :
    mapLookup ((k, v) :: m) k = some v := by
  simp [mapLookup]

theorem mapLookup_cons_ne {k k' : κ} (v : α) (m : List (κ × α)) (h : k ≠ k') :
    mapLookup ((k, v) :: m) k' = mapLookup m k' := by
  simp [mapLookup, h]

theorem mapSet_length (m : List (κ × α)) (k : κ) (v : α) :
    (mapSet m k v).length = m.length := by
  induction m with
  | nil => rfl
  | cons p rest ih =>
    obtain ⟨k', v'⟩ := p
    by_cases h : k' = k <;> simp [mapSet, h, ih]

theorem mapLookup_mapSet_self {m : List (κ × α)} {k : κ} {v₀ : α} (v : α)
    (h : mapLookup m k = some v₀) :
    mapLookup (mapSet m k v) k = some v := by
  induction m with
  | nil => simp [mapLookup] at h
  | cons p rest ih =>
    obtain ⟨k', v'⟩ := p
    by_cases hk : k' = k
    · subst hk
      simp [mapSet, mapLookup]
    · simp only [mapLookup, if_neg hk] at h
      simp [mapSet, mapLookup, hk, ih h]

theorem mapSet_lookup_eq {m : List (κ × α)} {k : κ} {v : α}
    (h : mapLookup m k = some v) : mapSet m k v = m := by
  induction m with
  | nil => simp [mapLookup] at h
  | cons p rest ih =>
    obtain ⟨k', v'⟩ := p
    by_cases hk : k' = k
    · subst hk
      rw [mapLookup_cons_self] at h
      injection h with h
      simp [mapSet, h]
    · simp only [mapLookup, if_neg hk] at h
      simp [mapSet, hk, ih h]

theorem containsKey_iff {m : List (κ × α)} {k : κ} :
    containsKey m k = true ↔ ∃ v, mapLookup m k = some v := by
  simp [containsKey, Option.isSome_iff_exists]

theorem singleton_of_containsKey_length_one {m : List (κ × α)} {k : κ}
    (hc : containsKey m k = true) (hl : m.length = 1) :
    ∃ v, m = [(k, v)] := by
  match m, hl with
  | [(k', v')], _ =>
    rcases containsKey_iff.mp hc with ⟨v, hv⟩
    simp only [mapLookup] at hv
    split at hv
    · next h => exact ⟨v', by rw [h]⟩
    · simp [mapLookup] at hv

end MapLemmas

/-- A concrete device used by witnesses: `dev1` with one session `u1`
holding one pending `LinkStart-Combat` task whose id is the first generated
id. -/
def exDevice : Device :=
  { id := "dev1"
  , name := "dev1"
  , users := [("u1", { id := "u1"
                     , tasks := [{ id := genId 0, task_type := .LinkStartCombat }] })] }

/-- A concrete registry used by witnesses: the single device `exDevice`,
its pending task recorded in the correlation table, operator chat id 7. -/
def exState : AppState :=
  { devices := [("dev1", exDevice)]
  , all_tasks := [(genId 0, .LinkStartCombat)]
  , tg_user_id := 7
  , is_single_user := false
  , allowed_devices := none
  , next_id := 1 }

/-- A concrete bot state over `exState` whose operator conversation (chat 7)
is waiting for a device choice. -/
def exBotState : BotState :=
  { app := exState, dialogs := [(7, .StartAppendTask)] }

/-- After `get_task_body` on a state containing the polled device, the
resulting state still contains it, with the session present. -/
theorem get_task_body_eq (s : AppState) (req : GetTaskReq) {device : Device}
    (h : mapLookup s.devices req.device = some device) :
    get_task_body s req =
      .ok ({ s with
              devices := mapSet s.devices req.device
                { device with users := ensureUser device.users req.user },
              is_single_user :=
                s.devices.length == 1 && (ensureUser device.users req.user).length == 1 },
           (userIn (ensureUser device.users req.user) req.user).tasks) := by
  simp [get_task_body, h]

/-- C10: the task-kind choice list of the append-task flow is exactly the
ten-entry catalogue — `CaptureImage`, `CaptureImageNow` and the eight
`LinkStart-*` routines — and never offers `HeartBeat`; every offered token
parses (after stripping the `t:` marker, as `receive_task` does) to a kind
other than `HeartBeat`, so the append-task flow cannot enqueue a heartbeat
probe. -/
theorem c10_task_catalogue_no_heartbeat :
    TaskType.get_all.length = 10 ∧
    TaskType.get_all =
      [ "CaptureImage", "CaptureImageNow", "LinkStart-Base", "LinkStart-WakeUp"
      , "LinkStart-Combat", "LinkStart-Recruiting", "LinkStart-Mall"
      , "LinkStart-Mission", "LinkStart-AutoRoguelike"
      , "LinkStart-ReclamationAlgorithm" ] ∧
    "HeartBeat" ∉ TaskType.get_all ∧
    get_tasks_markup = TaskType.get_all.map (fun t => "t:" ++ t) ∧
    (∀ tok ∈ get_tasks_markup,
      TaskType.fromStr (replaceS tok "t:" "") ≠ some TaskType.HeartBeat) := by
  decide

/-- C9: a turn (command or callback) whose conversation identity differs
from the statically configured operator id is dropped by the dispatcher's
access filter: no handler runs, the registry and every dialogue state are
unchanged, and no reply is sent. -/
theorem c9_unauthorized_turn_inert (g : BotState) (t : Turn)
    (h : t.chatId ≠ g.app.tg_user_id) :
    dispatch g t = some (g, []) := by
  have hb : (t.chatId == g.app.tg_user_id) = false := by
    simpa using h
  simp [dispatch, hb]

theorem c9_unauthorized_turn_inert_witness :
    dispatch exBotState { chatId := 8, payload := .command .AppendTask } =
      some (exBotState, []) :=
  c9_unauthorized_turn_inert exBotState
    { chatId := 8, payload := .command .AppendTask } (by decide)

/-- C7 (failing inputs): `append_task` does not fail with a typed
`DeviceNotFound`/`SessionNotFound` error when the device or session is
absent — the source unwraps the lookups and panics (modelled `none`); the
typed error variants exist in `error.rs` and the callers in
`bot/append_task.rs` and `bot/screenshot_all.rs` expect a fallible result,
so the claim matches the intent while the code panics. -/
theorem c7_append_task_panics_on_missing :
    append_task { devices := [], all_tasks := [], tg_user_id := 7,
                  is_single_user := false, allowed_devices := none, next_id := 0 }
        "dev1" "u1" "CaptureImage" = none ∧
    append_task { devices := [("dev1", Device.new "dev1")], all_tasks := [],
                  tg_user_id := 7, is_single_user := false,
                  allowed_devices := none, next_id := 0 }
        "dev1" "u1" "CaptureImage" = none := by
  decide

/-- C5: with an allow-list configured, a poll from a device id absent from
the list returns an empty task list and leaves the whole state untouched
(no registry entry is materialized), while a poll from an allow-listed but
not yet registered device id materializes the device under the
allow-listed display name. -/
theorem c5_allow_list_gating (s : AppState) (al : List (String × String))
    (u dB dA nameA : String)
    (hal : s.allowed_devices = some al)
    (hBout : mapLookup al dB = none)
    (hBnew : containsKey s.devices dB = false)
    (hAin : mapLookup al dA = some nameA)
    (hAnew : containsKey s.devices dA = false) :
    get_task s { user := u, device := dB } = .ok (s, []) ∧
    ∃ s' ts, get_task s { user := u, device := dA } = .ok (s', ts) ∧
      ∃ d, mapLookup s'.devices dA = some d ∧ d.name = nameA ∧ d.id = dA := by
  constructor
  · simp [get_task, hBnew, hal, hBout]
  · have hlk :
        mapLookup (mapInsert s.devices dA (Device.new_with_name dA nameA)) dA =
          some (Device.new_with_name dA nameA) :=
      mapLookup_cons_self dA _ s.devices
    have h1 : get_task s { user := u, device := dA } =
        get_task_body
          { s with devices :=
              mapInsert s.devices dA (Device.new_with_name dA nameA) }
          { user := u, device := dA } := by
      simp [get_task, hal, hAin, hAnew]
    rw [h1,
      get_task_body_eq
        { s with devices :=
            mapInsert s.devices dA (Device.new_with_name dA nameA) }
        { user := u, device := dA } hlk]
    exact ⟨_, _, rfl, _, mapLookup_mapSet_self _ hlk, rfl, rfl⟩

/-- An empty registry with the allow-list `[("devA", "Main phone")]`. -/
def exAllowState : AppState :=
  { devices := [], all_tasks := [], tg_user_id := 7, is_single_user := false,
    allowed_devices := some [("devA", "Main phone")], next_id := 0 }

theorem c5_allow_list_gating_witness :
    get_task exAllowState { user := "u1", device := "devB" } =
      .ok (exAllowState, []) ∧
    ∃ s' ts,
      get_task exAllowState { user := "u1", device := "devA" } = .ok (s', ts) ∧
      ∃ d, mapLookup s'.devices "devA" = some d ∧ d.name = "Main phone" ∧
        d.id = "devA" :=
  c5_allow_list_gating exAllowState [("devA", "Main phone")] "u1" "devB" "devA"
    "Main phone" rfl (by decide) (by decide) (by decide) (by decide)

/-- C2: an enqueue on an existing device/session with a recognized kind
other than `CaptureImage` appends exactly two tasks in one update — the
primary with the requested kind first, then a companion `CaptureImage`
task with its own distinct fresh id — and records both ids in the
correlation table; for `CaptureImage` exactly one task is appended and
recorded. -/
theorem c2_companion_task (s : AppState) (dev usr kindStr : String)
    (device : Device) (user : User) (k : TaskType)
    (hdev : mapLookup s.devices dev = some device)
    (husr : mapLookup device.users usr = some user)
    (hk : TaskType.fromStr kindStr = some k) :
    ∃ s', append_task s dev usr kindStr = some s' ∧
      ∃ device' user',
        mapLookup s'.devices dev = some device' ∧
        mapLookup device'.users usr = some user' ∧
        mapLookup s'.all_tasks (genId s.next_id) = some k ∧
        (if k = .CaptureImage then
          user'.tasks = user.tasks ++ [{ id := genId s.next_id, task_type := k }]
         else
          user'.tasks = user.tasks ++
            [{ id := genId s.next_id, task_type := k },
             { id := genId (s.next_id + 1), task_type := .CaptureImage }] ∧
          genId (s.next_id + 1) ≠ genId s.next_id ∧
          mapLookup s'.all_tasks (genId (s.next_id + 1)) = some .CaptureImage) := by
  have hne : genId (s.next_id + 1) ≠ genId s.next_id := by
    intro h
    exact absurd (genId_inj h) (by omega)
  by_cases hcap : k = .CaptureImage
  · subst hcap
    simp only [append_task, hdev, husr, hk, if_pos rfl]
    refine ⟨_, rfl, _, _, mapLookup_mapSet_self _ hdev,
      mapLookup_mapSet_self _ husr, mapLookup_cons_self _ _ _, ?_⟩
    simp
  · simp only [append_task, hdev, husr, hk, if_neg hcap]
    refine ⟨_, rfl, _, _, mapLookup_mapSet_self _ hdev,
      mapLookup_mapSet_self _ husr, ?_, ?_⟩
    · rw [mapInsert, mapInsert, mapLookup_cons_ne _ _ hne]
      exact mapLookup_cons_self _ _ _
    · simp only [if_neg hcap]
      exact ⟨by simp, hne, mapLookup_cons_self _ _ _⟩

/-- The single session of `exDevice`. -/
def exUser : User :=
  { id := "u1", tasks := [{ id := genId 0, task_type := .LinkStartCombat }] }

theorem c2_companion_task_witness :
    ∃ s', append_task exState "dev1" "u1" "LinkStart-Combat" = some s' ∧
      ∃ device' user',
        mapLookup s'.devices "dev1" = some device' ∧
        mapLookup device'.users "u1" = some user' ∧
        mapLookup s'.all_tasks (genId exState.next_id) = some .LinkStartCombat ∧
        (if TaskType.LinkStartCombat = TaskType.CaptureImage then
          user'.tasks = exUser.tasks ++
            [{ id := genId exState.next_id, task_type := .LinkStartCombat }]
         else
          user'.tasks = exUser.tasks ++
            [{ id := genId exState.next_id, task_type := .LinkStartCombat },
             { id := genId (exState.next_id + 1), task_type := .CaptureImage }] ∧
          genId (exState.next_id + 1) ≠ genId exState.next_id ∧
          mapLookup s'.all_tasks (genId (exState.next_id + 1)) =
            some .CaptureImage) :=
  c2_companion_task exState "dev1" "u1" "LinkStart-Combat" exDevice exUser
    .LinkStartCombat (by decide) (by decide) (by decide)

/-- C6: for a report whose task id resolves to `HeartBeat`, the
kind-and-status notification is emitted first; then an empty payload
produces exactly the "No task is running." reply and a successful
termination, while a non-empty payload is resolved as an inner task id —
yielding the inner kind plus the raw id on success, and a hard
`TaskNotFound` failure (after the notification) when the inner id is not in
the correlation table.  The two payload paths are mutually exclusive and
each ends the handling. -/
theorem c6_heartbeat_report (s : AppState) (req : TaskStatus)
    (hHB : mapLookup s.all_tasks req.task = some .HeartBeat) :
    (report_status s req).1.head? = some (Msg.text
        ("Task HeartBeat finished. Status: " ++ req.status)) ∧
    (req.payload.data.isEmpty = true →
      report_status s req =
        ([Msg.text ("Task HeartBeat finished. Status: " ++ req.status),
          Msg.text "No task is running."], .ok ())) ∧
    (req.payload.data.isEmpty = false →
      (∀ inner, mapLookup s.all_tasks req.payload = some inner →
        report_status s req =
          ([Msg.text ("Task HeartBeat finished. Status: " ++ req.status),
            Msg.text ("Task " ++ inner.toWire ++ " is running.\nTask id: "
              ++ req.payload)], .ok ())) ∧
      (mapLookup s.all_tasks req.payload = none →
        report_status s req =
          ([Msg.text ("Task HeartBeat finished. Status: " ++ req.status)],
           .error (.TaskNotFound req.payload)))) := by
  refine ⟨?_, ?_, ?_⟩
  · simp only [report_status, get_task_type, hHB]
    by_cases hp : req.payload.data.isEmpty
    · simp [hp, TaskType.toWire]
    · simp only [Bool.not_eq_true] at hp
      simp only [hp, Bool.false_eq_true, if_false]
      match hinner : mapLookup s.all_tasks req.payload with
      | some inner => simp [TaskType.toWire]
      | none => simp [TaskType.toWire]
  · intro hp
    simp [report_status, get_task_type, hHB, hp, TaskType.toWire]
  · intro hp
    constructor
    · intro inner hinner
      simp [report_status, get_task_type, hHB, hp, hinner, TaskType.toWire]
    · intro hinner
      simp [report_status, get_task_type, hHB, hp, hinner, TaskType.toWire]

/-- The witness registry for the heartbeat scenario: `exState` plus a
pending heartbeat task, id `genId 1`. -/
def exHbState : AppState :=
  { exState with all_tasks := (genId 1, .HeartBeat) :: exState.all_tasks }

/-- A heartbeat report whose payload names the running `LinkStart-Combat`
task. -/
def exHbBusy : TaskStatus :=
  { user := "u1", device := "dev1", task := genId 1, status := "SUCCESS",
    payload := genId 0 }

/-- A heartbeat report with an empty payload (nothing running). -/
def exHbIdle : TaskStatus :=
  { user := "u1", device := "dev1", task := genId 1, status := "SUCCESS",
    payload := "" }

theorem c6_heartbeat_report_witness :
    report_status exHbState exHbBusy =
      ([Msg.text ("Task HeartBeat finished. Status: " ++ exHbBusy.status),
        Msg.text ("Task " ++ TaskType.LinkStartCombat.toWire ++
          " is running.\nTask id: " ++ exHbBusy.payload)], .ok ()) ∧
    report_status exHbState exHbIdle =
      ([Msg.text ("Task HeartBeat finished. Status: " ++ exHbIdle.status),
        Msg.text "No task is running."], .ok ()) :=
  ⟨((c6_heartbeat_report exHbState exHbBusy (by decide)).2.2 (by decide)).1
      .LinkStartCombat (by decide),
   (c6_heartbeat_report exHbState exHbIdle (by decide)).2.1 (by decide)⟩

/-- A session map contains the polled user after `ensureUser`. -/
theorem containsKey_ensureUser (users : List (String × User)) (u : String) :
    containsKey (ensureUser users u) u = true := by
  by_cases h : containsKey users u = true
  · simp [ensureUser, h]
  · have h' : (mapLookup users u).isSome = false := by
      simpa [containsKey] using h
    simp [ensureUser, containsKey, h', mapInsert, mapLookup]

/-- A session map already containing the user is unchanged by `ensureUser`. -/
theorem ensureUser_of_containsKey {users : List (String × User)} {u : String}
    (h : containsKey users u = true) : ensureUser users u = users := by
  simp [ensureUser, h]

/-- A registry whose device count is not one is not single-session. -/
theorem single_user_eq_false {s : AppState} (h : s.devices.length ≠ 1) :
    single_device_single_user s = false := by
  unfold single_device_single_user
  split
  · next heq => exact absurd (by rw [heq]; rfl) h
  · rfl

/-- After `get_task_body` on a state containing the polled device, the
stored single-session flag equals the single-session predicate of the
post-state. -/
theorem get_task_body_flag (sb : AppState) (req : GetTaskReq) {s' : AppState}
    {ts : List Task} (hc : containsKey sb.devices req.device = true)
    (h : get_task_body sb req = .ok (s', ts)) :
    s'.is_single_user = single_device_single_user s' := by
  rcases containsKey_iff.mp hc with ⟨device, hdev⟩
  rw [get_task_body_eq sb req hdev] at h
  rw [Except.ok.injEq, Prod.mk.injEq] at h
  obtain ⟨h1, _⟩ := h
  subst h1
  by_cases hl : sb.devices.length = 1
  · obtain ⟨v, hv⟩ := singleton_of_containsKey_length_one hc hl
    have hdv : v = device := by
      rw [hv] at hdev
      simpa [mapLookup] using hdev
    subst hdv
    rw [hv]
    simp [mapSet, single_device_single_user, hv ▸ hl]
  · rw [single_user_eq_false (by simpa [mapSet_length] using hl)]
    simp [hl]

/-- C4: after every admitted poll (device already present, no allow-list,
or allow-listed device), the stored single-session flag is true iff the
post-state registry holds exactly one device with exactly one session. -/
theorem c4_single_session_flag (s : AppState) (req : GetTaskReq)
    {s' : AppState} {ts : List Task}
    (hadm : containsKey s.devices req.device = true ∨ s.allowed_devices = none ∨
      ∃ al, s.allowed_devices = some al ∧ containsKey al req.device = true)
    (h : get_task s req = .ok (s', ts)) :
    s'.is_single_user = single_device_single_user s' := by
  unfold get_task at h
  by_cases hc : containsKey s.devices req.device = true
  · rw [if_pos hc] at h
    exact get_task_body_flag s req hc h
  · rw [if_neg hc] at h
    rcases hadm with hadm | hnone | ⟨al, hal, halc⟩
    · exact absurd hadm hc
    · simp only [hnone] at h
      exact get_task_body_flag _ req (by simp [containsKey, mapInsert, mapLookup]) h
    · rcases containsKey_iff.mp halc with ⟨name, hname⟩
      simp only [hal, hname] at h
      exact get_task_body_flag _ req (by simp [containsKey, mapInsert, mapLookup]) h

/-- The state `exState` after an admitted poll of `dev1`/`u1`: identical
except that the single-session flag is now set. -/
def exStateSingle : AppState :=
  { devices := [("dev1", exDevice)]
  , all_tasks := [(genId 0, .LinkStartCombat)]
  , tg_user_id := 7
  , is_single_user := true
  , allowed_devices := none
  , next_id := 1 }

theorem c4_single_session_flag_witness :
    exStateSingle.is_single_user = single_device_single_user exStateSingle :=
  @c4_single_session_flag exState { user := "u1", device := "dev1" }
    exStateSingle [{ id := genId 0, task_type := .LinkStartCombat }]
    (Or.inl (by decide)) rfl

/-- C8 (counterexample): in state `StartAppendTask` (awaiting a device
choice) a task-kind-prefixed token is answered with "Invalid device id" —
an invalid-selection reply, not the "Invalid state" reply the claim
asserts — while the dialogue state is indeed left unchanged. -/
theorem c8_counterexample :
    dispatch exBotState
        { chatId := 7, payload := .callbackQuery (some "t:CaptureImage") } =
      some (exBotState, [Msg.text "Invalid device id"]) ∧
    Msg.text "Invalid device id" ≠ Msg.text "Invalid state" := by
  decide

/-- C8 (amended): a selection token whose category marker does not match
the awaited step — here a non-device token while the dialogue awaits a
device choice — draws the invalid-selection reply "Invalid device id"
(not "Invalid state"), and the dialogue state and registry are left
exactly unchanged; in particular the state is not reset to `Idle`. -/
theorem c8_mis_prefixed_token_keeps_state (g : BotState) (c : Int) (tok : String)
    (huser : chatIdIsUser c = true) (hc : c = g.app.tg_user_id)
    (hst : dialogStateOf g c = .StartAppendTask)
    (htok : starts_with tok "d:" = false) :
    dispatch g { chatId := c, payload := .callbackQuery (some tok) } =
      some (g, [Msg.text "Invalid device id"]) := by
  subst hc
  simp [dispatch, huser, hst, receive_device, htok]

theorem c8_mis_prefixed_token_keeps_state_witness :
    dispatch exBotState
        { chatId := 7, payload := .callbackQuery (some "t:LinkStart-Combat") } =
      some (exBotState, [Msg.text "Invalid device id"]) :=
  c8_mis_prefixed_token_keeps_state exBotState 7 "t:LinkStart-Combat"
    (by decide) (by decide) (by decide) (by decide)

/-- C1 (counterexample): polling `dev1`/`u1` on `exState` returns the one
pending task, and an immediately repeated poll with no intervening enqueue
returns the very same non-empty list — the pending list is not cleared, so
the claimed empty second drain is false. -/
theorem c1_counterexample :
    (get_task exState { user := "u1", device := "dev1" }).toOption.map Prod.snd =
      some [{ id := genId 0, task_type := .LinkStartCombat }] ∧
    ((get_task exState { user := "u1", device := "dev1" }).toOption.bind fun p =>
      (get_task p.1 { user := "u1", device := "dev1" }).toOption.map Prod.snd) =
      some [{ id := genId 0, task_type := .LinkStartCombat }] ∧
    ([{ id := genId 0, task_type := .LinkStartCombat }] : List Task) ≠ [] := by
  decide

/-- After a successful `get_task_body` the polled device and session exist,
and polling again reproduces exactly the same state and task list. -/
theorem get_task_body_idem (sb : AppState) (req : GetTaskReq) {s1 : AppState}
    {ts : List Task} (hc : containsKey sb.devices req.device = true)
    (h : get_task_body sb req = .ok (s1, ts)) :
    get_task s1 req = .ok (s1, ts) := by
  rcases containsKey_iff.mp hc with ⟨device, hdev⟩
  rw [get_task_body_eq sb req hdev] at h
  rw [Except.ok.injEq, Prod.mk.injEq] at h
  obtain ⟨h1, h2⟩ := h
  subst h1
  subst h2
  have hdev' :
      mapLookup
        (mapSet sb.devices req.device
          { device with users := ensureUser device.users req.user })
        req.device =
        some { device with users := ensureUser device.users req.user } :=
    mapLookup_mapSet_self _ hdev
  have hcont :
      containsKey
        (mapSet sb.devices req.device
          { device with users := ensureUser device.users req.user })
        req.device = true := by
    simp [containsKey, hdev']
  unfold get_task
  rw [if_pos hcont]
  rw [get_task_body_eq _ req hdev']
  have hens :
      ensureUser (ensureUser device.users req.user) req.user =
        ensureUser device.users req.user :=
    ensureUser_of_containsKey (containsKey_ensureUser device.users req.user)
  dsimp only
  rw [hens]
  rw [Except.ok.injEq, Prod.mk.injEq]
  refine ⟨?_, rfl⟩
  rw [AppState.mk.injEq]
  exact ⟨mapSet_lookup_eq hdev', rfl, rfl, by rw [mapSet_length], rfl, rfl⟩

/-- C1 (amended): a poll returns the session's pending list without
clearing it — polling the same device and session again with no
intervening enqueue returns exactly the same state and the same task
list. -/
theorem c1_poll_does_not_clear (s : AppState) (req : GetTaskReq)
    {s1 : AppState} {ts : List Task}
    (h : get_task s req = .ok (s1, ts)) :
    get_task s1 req = .ok (s1, ts) := by
  unfold get_task at h
  by_cases hc : containsKey s.devices req.device = true
  · rw [if_pos hc] at h
    exact get_task_body_idem s req hc h
  · rw [if_neg hc] at h
    cases hall : s.allowed_devices with
    | some al =>
      simp only [hall] at h
      cases hlk : mapLookup al req.device with
      | some name =>
        simp only [hlk] at h
        exact get_task_body_idem _ req
          (by simp [containsKey, mapInsert, mapLookup]) h
      | none =>
        simp only [hlk] at h
        rw [Except.ok.injEq, Prod.mk.injEq] at h
        obtain ⟨h1, h2⟩ := h
        subst h1
        subst h2
        unfold get_task
        rw [if_neg hc]
        simp only [hall, hlk]
    | none =>
      simp only [hall] at h
      exact get_task_body_idem _ req
        (by simp [containsKey, mapInsert, mapLookup]) h

theorem c1_poll_does_not_clear_witness :
    get_task exStateSingle { user := "u1", device := "dev1" } =
      .ok (exStateSingle, [{ id := genId 0, task_type := .LinkStartCombat }]) :=
  @c1_poll_does_not_clear exState { user := "u1", device := "dev1" }
    exStateSingle [{ id := genId 0, task_type := .LinkStartCombat }] rfl

/-- A successful poll never touches the correlation table or the id
counter. -/
theorem get_task_body_all_tasks (sb : AppState) (req : GetTaskReq)
    {s' : AppState} {ts : List Task}
    (h : get_task_body sb req = .ok (s', ts)) :
    s'.all_tasks = sb.all_tasks ∧ s'.next_id = sb.next_id := by
  unfold get_task_body at h
  cases hdev : mapLookup sb.devices req.device with
  | none => simp [hdev] at h
  | some device =>
    simp only [hdev] at h
    rw [Except.ok.injEq, Prod.mk.injEq] at h
    obtain ⟨h1, _⟩ := h
    subst h1
    exact ⟨rfl, rfl⟩

/-- The same for the whole poll handler. -/
theorem get_task_all_tasks (s : AppState) (req : GetTaskReq)
    {s' : AppState} {ts : List Task}
    (h : get_task s req = .ok (s', ts)) :
    s'.all_tasks = s.all_tasks ∧ s'.next_id = s.next_id := by
  unfold get_task at h
  by_cases hc : containsKey s.devices req.device = true
  · rw [if_pos hc] at h
    exact get_task_body_all_tasks s req h
  · rw [if_neg hc] at h
    cases hall : s.allowed_devices with
    | some al =>
      simp only [hall] at h
      cases hlk : mapLookup al req.device with
      | some name =>
        simp only [hlk] at h
        obtain ⟨h1, h2⟩ := get_task_body_all_tasks _ req h
        exact ⟨h1, h2⟩
      | none =>
        simp only [hlk] at h
        rw [Except.ok.injEq, Prod.mk.injEq] at h
        obtain ⟨h1, _⟩ := h
        subst h1
        exact ⟨rfl, rfl⟩
    | none =>
      simp only [hall] at h
      obtain ⟨h1, h2⟩ := get_task_body_all_tasks _ req h
      exact ⟨h1, h2⟩

/-- An enqueue preserves well-formedness of the correlation table and every
existing correlation entry (the fresh ids cannot collide with recorded
ones). -/
theorem append_task_preserves (s : AppState) (d u t : String) {s' : AppState}
    (hwf : TasksWF s) (h : append_task s d u t = some s') :
    TasksWF s' ∧ ∀ id k, mapLookup s.all_tasks id = some k →
      mapLookup s'.all_tasks id = some k := by
  unfold append_task at h
  cases hdev : mapLookup s.devices d with
  | none => simp [hdev] at h
  | some device =>
    simp only [hdev] at h
    cases husr : mapLookup device.users u with
    | none => simp [husr] at h
    | some user =>
      simp only [husr] at h
      cases hk : TaskType.fromStr t with
      | none => simp [hk] at h
      | some tt =>
        simp only [hk] at h
        by_cases hcap : tt = .CaptureImage
        · rw [if_pos hcap] at h
          rw [Option.some.injEq] at h
          subst h
          refine ⟨?_, ?_⟩
          · intro id k hlk
            have hlk' :
                mapLookup (mapInsert s.all_tasks (genId s.next_id) tt) id =
                  some k := hlk
            show ∃ m, m < s.next_id + 1 ∧ id = genId m
            by_cases hid : genId s.next_id = id
            · exact ⟨s.next_id, Nat.lt_succ_self _, hid.symm⟩
            · rw [mapInsert, mapLookup_cons_ne _ _ hid] at hlk'
              obtain ⟨m, hm, he⟩ := hwf id k hlk'
              exact ⟨m, Nat.lt_succ_of_lt hm, he⟩
          · intro id k hlk
            obtain ⟨m, hm, he⟩ := hwf id k hlk
            have hid : genId s.next_id ≠ id := by
              intro heq
              rw [he] at heq
              have := genId_inj heq
              omega
            show mapLookup (mapInsert s.all_tasks (genId s.next_id) tt) id =
              some k
            rw [mapInsert, mapLookup_cons_ne _ _ hid]
            exact hlk
        · rw [if_neg hcap] at h
          rw [Option.some.injEq] at h
          subst h
          refine ⟨?_, ?_⟩
          · intro id k hlk
            have hlk' :
                mapLookup
                  (mapInsert (mapInsert s.all_tasks (genId s.next_id) tt)
                    (genId (s.next_id + 1)) .CaptureImage) id = some k := hlk
            show ∃ m, m < s.next_id + 2 ∧ id = genId m
            by_cases hid2 : genId (s.next_id + 1) = id
            · exact ⟨s.next_id + 1, Nat.lt_succ_self _, hid2.symm⟩
            · rw [mapInsert, mapLookup_cons_ne _ _ hid2] at hlk'
              by_cases hid1 : genId s.next_id = id
              · exact ⟨s.next_id, Nat.lt_succ_of_lt (Nat.lt_succ_self _),
                  hid1.symm⟩
              · rw [mapInsert, mapLookup_cons_ne _ _ hid1] at hlk'
                obtain ⟨m, hm, he⟩ := hwf id k hlk'
                exact ⟨m, Nat.lt_succ_of_lt (Nat.lt_succ_of_lt hm), he⟩
          · intro id k hlk
            obtain ⟨m, hm, he⟩ := hwf id k hlk
            have hid1 : genId s.next_id ≠ id := by
              intro heq
              rw [he] at heq
              have := genId_inj heq
              omega
            have hid2 : genId (s.next_id + 1) ≠ id := by
              intro heq
              rw [he] at heq
              have := genId_inj heq
              omega
            show mapLookup
                (mapInsert (mapInsert s.all_tasks (genId s.next_id) tt)
                  (genId (s.next_id + 1)) .CaptureImage) id = some k
            rw [mapInsert, mapInsert, mapLookup_cons_ne _ _ hid2,
              mapLookup_cons_ne _ _ hid1]
            exact hlk

/-- One boundary operation (poll or enqueue) preserves well-formedness and
every existing correlation entry. -/
theorem stepOp_preserves (s : AppState) (op : Op) (hwf : TasksWF s) :
    TasksWF (stepOp s op) ∧ ∀ id k, mapLookup s.all_tasks id = some k →
      mapLookup (stepOp s op).all_tasks id = some k := by
  cases op with
  | poll req =>
    simp only [stepOp]
    cases hg : get_task s req with
    | ok p =>
      obtain ⟨s', ts⟩ := p
      dsimp only
      obtain ⟨h1, h2⟩ := get_task_all_tasks s req hg
      constructor
      · intro id k hlk
        rw [h1] at hlk
        obtain ⟨m, hm, he⟩ := hwf id k hlk
        exact ⟨m, by rw [h2]; exact hm, he⟩
      · intro id k hlk
        rw [h1]
        exact hlk
    | error e => exact ⟨hwf, fun _ _ hlk => hlk⟩
  | enqueue d u t =>
    simp only [stepOp]
    cases ha : append_task s d u t with
    | none => simp only [Option.getD]; exact ⟨hwf, fun _ _ hlk => hlk⟩
    | some s2 => simp only [Option.getD]; exact append_task_preserves s d u t hwf ha

/-- C3: a task kind recorded in the correlation table stays recorded — with
the same kind — after arbitrarily many subsequent polls and enqueues on any
devices and sessions: the table is append-only and fresh ids never
overwrite an existing entry.  Together with C2 (every enqueued task,
primary or companion, is recorded at creation) this is correlation
completeness for every task ever created. -/
theorem c3_correlation_persistent (s : AppState) (ops : List Op) (id : String)
    (k : TaskType) (hwf : TasksWF s)
    (hid : mapLookup s.all_tasks id = some k) :
    mapLookup (runOps s ops).all_tasks id = some k := by
  induction ops generalizing s with
  | nil => exact hid
  | cons op rest ih =>
    obtain ⟨hwf', hpres⟩ := stepOp_preserves s op hwf
    exact ih (stepOp s op) hwf' (hpres id k hid)

theorem c3_correlation_persistent_witness :
    mapLookup (runOps exState
      [Op.poll { user := "u2", device := "dev2" },
       Op.enqueue "dev1" "u1" "CaptureImageNow",
       Op.poll { user := "u1", device := "dev1" }]).all_tasks (genId 0) =
      some .LinkStartCombat :=
  c3_correlation_persistent exState
    [Op.poll { user := "u2", device := "dev2" },
     Op.enqueue "dev1" "u1" "CaptureImageNow",
     Op.poll { user := "u1", device := "dev1" }]
    (genId 0) .LinkStartCombat
    (fun id k h => by
      refine ⟨0, Nat.one_pos, ?_⟩
      by_cases he : genId 0 = id
      · exact he.symm
      · simp only [exState, mapLookup] at h
        rw [if_neg he] at h
        simp [mapLookup] at h)
    (by decide)

end Maa
